import Mathlib

/-!
Verification of the SSE MCP client (`oxygent/oxy/mcp_tools/sse_mcp_client.py`).

The client is embedded shallowly: the external transport (`sse_client`) and
session library (`ClientSession`) are modelled by an environment oracle `Env`
that decides whether each external step succeeds and what discovery returns.
Each operation is a pure function from the environment and the client state to
a result (`Except MCPError`), the post state, and a trace of externally
observable events (connection opens with their header/timeout arguments,
session wraps, handshakes, discovery and invocation requests, releases,
middleware attachments and warnings, log lines).
-/

namespace SSEMCP

/-- Header mapping sent with a connection attempt. -/
abbrev Headers := List (String × String)

/-- An opaque client-side middleware handle. -/
abbrev Middleware := String

/-- A discovered tool descriptor. -/
abbrev Tool := String

/-- Arguments of a tool invocation. -/
abbrev Args := List (String × String)

/-- Result payload of a tool invocation. -/
abbrev ToolResult := String

/-- A resource tracked by the scoped resource stack (`_exit_stack`). -/
inductive Resource
  | conn
  | sess
deriving DecidableEq

/-- Errors of the embedded system.  The first five model the underlying error
kinds raised by the external collaborators; `initFailure` models the opaque
`Exception(f"Server \x7bself.name\x7d error")` raised by `init`, which carries
only the server name and no cause. -/
inductive MCPError
  | connectionError
  | handshakeError
  | attachError
  | discoveryError
  | invocationError (toolName : String)
  | initFailure (serverName : String)
deriving DecidableEq

/-- Externally observable events emitted by the client's operations.
`openConn` records the url, the headers argument and the timeout argument
passed to the transport open (`sse_client`). -/
inductive Event
  | openConn (url : String) (headers : Option Headers) (timeoutArg : Option Nat)
  | wrapSession
  | attachMiddleware (mw : Middleware)
  | warnMiddleware (mw : Middleware)
  | handshake
  | listToolsReq
  | callToolReq (toolName : String) (args : Args)
  | closeSession
  | closeConn
  | logError (serverName : String) (cause : MCPError)
deriving DecidableEq

/-- The persistent session handle (`self._session`), recording which
middlewares were attached to it. -/
structure SessionHandle where
  attached : List Middleware
deriving DecidableEq

/-- The client state: configuration fields, the persistent session field, the
scoped resource stack and the discovered tool registry. -/
structure ClientState where
  name : String
  sse_url : String
  headers : Headers
  is_dynamic_headers : Bool
  is_keep_alive : Bool
  timeout : Nat
  middlewares : List Middleware
  session : Option SessionHandle
  exitStack : List Resource
  tools : List Tool
deriving DecidableEq

/-- Environment oracle for the external collaborators: whether the transport
open, the handshake, a middleware attachment, the discovery request and the
invocation request succeed, whether the session object exposes
`add_middleware`, the tool set discovery returns, and the invocation result. -/
structure Env where
  connectOk : Bool
  handshakeOk : Bool
  hasAddMiddleware : Bool
  attachOk : Bool
  listToolsOk : Bool
  discovered : List Tool
  callToolOk : Bool
  callResult : ToolResult
deriving DecidableEq

/-- Modelled from the spec: `build_url` is imported from a utility module that
is not among the provided sources; URL construction is an out-of-scope
external collaborator (spec section 1), so it is modelled as the identity on
the configured address. -/
def build_url (u : String) : String := u

/-- The release event for one tracked resource. -/
def releaseEvent : Resource → Event
  | Resource.conn => Event.closeConn
  | Resource.sess => Event.closeSession

/-- Modelled from the spec: `cleanup` lives in the base client class, which is
not among the provided sources.  Per spec sections 4.5 and 5 it releases every
resource tracked by the resource stack in reverse acquisition order and clears
the persistent session; it never touches `tools`. -/
def cleanup (st : ClientState) : ClientState × List Event :=
  ({ st with session := none, exitStack := [] },
   st.exitStack.reverse.map releaseEvent)

/-- Modelled from the spec: `add_tools` lives in the base client class, which
is not among the provided sources.  Per spec section 4.4 a successful
discovery replaces `tools` atomically with the full discovered set. -/
def add_tools (ts : List Tool) (st : ClientState) : ClientState :=
  { st with tools := ts }

/-- Modelled from the spec: `list_tools` lives in the base client class, which
is not among the provided sources.  Per spec section 4.4 it issues one
discovery request on the persistent session; on success it replaces `tools`
atomically, on failure `tools` is left unchanged and a discovery error is
raised. -/
def list_tools (env : Env) (st : ClientState) :
    Except MCPError Unit × ClientState × List Event :=
  if env.listToolsOk then
    (Except.ok (), add_tools env.discovered st, [Event.listToolsReq])
  else
    (Except.error MCPError.discoveryError, st, [Event.listToolsReq])

/-- The middleware loop of `init`'s persistent branch: for each configured
middleware in order, if the session exposes `add_middleware` it is attached
(raising if the attachment call itself fails), otherwise a warning is logged
and the loop continues.  Returns the list of attached middlewares and the
emitted events. -/
def attachLoop (env : Env) : List Middleware →
    Except MCPError (List Middleware) × List Event
  | [] => (Except.ok [], [])
  | mw :: rest =>
    if env.hasAddMiddleware then
      if env.attachOk then
        match attachLoop env rest with
        | (Except.ok l, tr) =>
          (Except.ok (mw :: l), Event.attachMiddleware mw :: tr)
        | (Except.error e, tr) =>
          (Except.error e, Event.attachMiddleware mw :: tr)
      else (Except.error MCPError.attachError, [])
    else
      match attachLoop env rest with
      | (r, tr) => (r, Event.warnMiddleware mw :: tr)

/-- The body of `init`, before the surrounding `try/except`.  Persistent
branch (`not is_dynamic_headers and is_keep_alive`): open the transport with
the configured headers and no timeout, push it on the exit stack, wrap a
session and push it too, store it in `self._session`, run the middleware loop,
handshake, and if `is_fetch_tools` run `list_tools`.  Ephemeral branch: open
the transport with the configured headers and no timeout inside an
`async with`, wrap a session inside an `async with`, handshake, list tools and
store them via `add_tools`; both context managers release on every exit. -/
def initBody (env : Env) (st : ClientState) (is_fetch_tools : Bool) :
    Except MCPError Unit × ClientState × List Event :=
  if !st.is_dynamic_headers && st.is_keep_alive then
    let ev0 := Event.openConn (build_url st.sse_url) (some st.headers) none
    if env.connectOk then
      let st2 : ClientState :=
        { st with exitStack := st.exitStack ++ [Resource.conn, Resource.sess],
                  session := some { attached := [] } }
      match attachLoop env st.middlewares with
      | (Except.ok attachedList, atr) =>
        let st3 : ClientState :=
          { st2 with session := some { attached := attachedList } }
        if env.handshakeOk then
          if is_fetch_tools then
            match list_tools env st3 with
            | (r, st4, ltr) =>
              (r, st4, ev0 :: Event.wrapSession :: (atr ++ Event.handshake :: ltr))
          else
            (Except.ok (), st3,
             ev0 :: Event.wrapSession :: (atr ++ [Event.handshake]))
        else
          (Except.error MCPError.handshakeError, st3,
           ev0 :: Event.wrapSession :: (atr ++ [Event.handshake]))
      | (Except.error e, atr) =>
        (Except.error e, st2, ev0 :: Event.wrapSession :: atr)
    else
      (Except.error MCPError.connectionError, st, [ev0])
  else
    let ev0 := Event.openConn (build_url st.sse_url) (some st.headers) none
    if env.connectOk then
      if env.handshakeOk then
        if env.listToolsOk then
          (Except.ok (), add_tools env.discovered st,
           [ev0, Event.wrapSession, Event.handshake, Event.listToolsReq,
            Event.closeSession, Event.closeConn])
        else
          (Except.error MCPError.discoveryError, st,
           [ev0, Event.wrapSession, Event.handshake, Event.listToolsReq,
            Event.closeSession, Event.closeConn])
      else
        (Except.error MCPError.handshakeError, st,
         [ev0, Event.wrapSession, Event.handshake,
          Event.closeSession, Event.closeConn])
    else
      (Except.error MCPError.connectionError, st, [ev0])

/-- `SSEMCPClient.init`: runs the body inside `try/except`; on any error it
logs the original cause, calls `cleanup`, and raises the opaque
`Exception(f"Server \x7bself.name\x7d error")`, modelled as
`MCPError.initFailure` carrying only the server name. -/
def init (env : Env) (st : ClientState) (is_fetch_tools : Bool) :
    Except MCPError Unit × ClientState × List Event :=
  match initBody env st is_fetch_tools with
  | (Except.ok u, st1, tr) => (Except.ok u, st1, tr)
  | (Except.error e, st1, tr) =>
    match cleanup st1 with
    | (st2, ctr) =>
      (Except.error (MCPError.initFailure st.name), st2,
       tr ++ Event.logError st.name e :: ctr)

/-- `SSEMCPClient.call_tool`: opens a fresh transport connection with the
headers argument (which the Python source defaults to `None`, modelled here by
passing `none`) and `timeout=self.timeout`, wraps a fresh session, handshakes,
performs one invocation and returns its result; both `async with` blocks
release on every exit, and no error is caught. -/
def call_tool (env : Env) (st : ClientState) (toolName : String) (args : Args)
    (headers : Option Headers) :
    Except MCPError ToolResult × ClientState × List Event :=
  let ev0 := Event.openConn (build_url st.sse_url) headers (some st.timeout)
  if env.connectOk then
    if env.handshakeOk then
      if env.callToolOk then
        (Except.ok env.callResult, st,
         [ev0, Event.wrapSession, Event.handshake,
          Event.callToolReq toolName args, Event.closeSession, Event.closeConn])
      else
        (Except.error (MCPError.invocationError toolName), st,
         [ev0, Event.wrapSession, Event.handshake,
          Event.callToolReq toolName args, Event.closeSession, Event.closeConn])
    else
      (Except.error MCPError.handshakeError, st,
       [ev0, Event.wrapSession, Event.handshake,
        Event.closeSession, Event.closeConn])
  else
    (Except.error MCPError.connectionError, st, [ev0])

/-- An environment in which every external step succeeds. -/
def envOk : Env :=
  { connectOk := true, handshakeOk := true, hasAddMiddleware := true,
    attachOk := true, listToolsOk := true, discovered := ["ta", "tb"],
    callToolOk := true, callResult := "res" }

/-- A freshly constructed client in persistent mode
(`is_dynamic_headers = false`, `is_keep_alive = true`). -/
def stPersistent : ClientState :=
  { name := "srv", sse_url := "u", headers := [("k", "v")],
    is_dynamic_headers := false, is_keep_alive := true, timeout := 5,
    middlewares := ["m1", "m2"], session := none, exitStack := [], tools := [] }

/-- A freshly constructed client in ephemeral mode (`is_keep_alive = false`). -/
def stEphemeral : ClientState :=
  { name := "srv", sse_url := "u", headers := [("k", "v")],
    is_dynamic_headers := false, is_keep_alive := false, timeout := 5,
    middlewares := ["m1"], session := none, exitStack := [], tools := [] }

/-- An environment in which the transport open fails. -/
def envConnFail : Env := { envOk with connectOk := false }

/-- An environment in which the invocation fails, as for an unknown tool. -/
def envCallFail : Env := { envOk with callToolOk := false }

/-- An environment whose session lacks the middleware extension point. -/
def envNoCap : Env := { envOk with hasAddMiddleware := false }

deriving instance DecidableEq for Except

example : (init envOk stPersistent true).1 = Except.ok () := by decide

example : (init envOk stEphemeral true).2.1.session = none := by decide

example :
    (call_tool envOk stPersistent "ta" [] none).1 = Except.ok "res" := by decide

/-- When the session lacks `add_middleware`, the loop attaches nothing and
emits one warning per configured middleware, in order. -/
theorem attachLoop_no_cap (env : Env) (h : env.hasAddMiddleware = false)
    (mws : List Middleware) :
    attachLoop env mws = (Except.ok [], mws.map Event.warnMiddleware) := by
  induction mws with
  | nil => rfl
  | cons mw rest ih => simp [attachLoop, h, ih]

/-- When the session exposes `add_middleware` and attachment succeeds, the
loop attaches every configured middleware, in order. -/
theorem attachLoop_cap_ok (env : Env) (h1 : env.hasAddMiddleware = true)
    (h2 : env.attachOk = true) (mws : List Middleware) :
    attachLoop env mws = (Except.ok mws, mws.map Event.attachMiddleware) := by
  induction mws with
  | nil => rfl
  | cons mw rest ih => simp [attachLoop, h1, h2, ih]

/-- When attachment itself raises, the loop emits no events before the error
escapes. -/
theorem attachLoop_cap_fail (env : Env) (h1 : env.hasAddMiddleware = true)
    (h2 : env.attachOk = false) (mws : List Middleware) :
    (attachLoop env mws).2 = [] := by
  cases mws with
  | nil => rfl
  | cons mw rest => simp [attachLoop, h1, h2]

/-- Every event emitted by the middleware loop is an attachment or a
warning. -/
theorem attachLoop_events (env : Env) (mws : List Middleware) (ev : Event)
    (h : ev ∈ (attachLoop env mws).2) :
    (∃ mw, ev = Event.attachMiddleware mw) ∨ ∃ mw, ev = Event.warnMiddleware mw := by
  cases h1 : env.hasAddMiddleware with
  | false =>
    rw [attachLoop_no_cap env h1 mws] at h
    simp only [List.mem_map] at h
    obtain ⟨mw, _, hmw⟩ := h
    exact Or.inr ⟨mw, hmw.symm⟩
  | true =>
    cases h2 : env.attachOk with
    | false => rw [attachLoop_cap_fail env h1 h2 mws] at h; simp at h
    | true =>
      rw [attachLoop_cap_ok env h1 h2 mws] at h
      simp only [List.mem_map] at h
      obtain ⟨mw, _, hmw⟩ := h
      exact Or.inl ⟨mw, hmw.symm⟩

/-- Every event emitted by `cleanup` is a release event. -/
theorem cleanup_events (st : ClientState) (ev : Event)
    (h : ev ∈ (cleanup st).2) :
    ev = Event.closeSession ∨ ev = Event.closeConn := by
  simp only [cleanup, List.mem_map] at h
  obtain ⟨r, _, hr⟩ := h
  cases r with
  | conn => exact Or.inr hr.symm
  | sess => exact Or.inl hr.symm

/-- Every transport open attempted by `init`'s body uses the configured url,
the client's configured headers, and no timeout argument. -/
theorem initBody_openConn (env : Env) (st : ClientState) (ft : Bool)
    (u : String) (hs : Option Headers) (t : Option Nat)
    (h : Event.openConn u hs t ∈ (initBody env st ft).2.2) :
    u = build_url st.sse_url ∧ hs = some st.headers ∧ t = none := by
  by_cases hm : (!st.is_dynamic_headers && st.is_keep_alive) = true
  · rcases hA : attachLoop env st.middlewares with ⟨rA, atr⟩
    have hatr : ∀ ev ∈ atr,
        (∃ mw, ev = Event.attachMiddleware mw) ∨ ∃ mw, ev = Event.warnMiddleware mw := by
      intro ev hev
      exact attachLoop_events env st.middlewares ev (by rw [hA]; exact hev)
    cases hc : env.connectOk with
    | false =>
      simp [initBody, hm, hc] at h
      exact h
    | true =>
      cases rA with
      | error e =>
        simp [initBody, hm, hc, hA] at h
        rcases h with h | h
        · exact h
        · rcases hatr _ h with ⟨mw, hmw⟩ | ⟨mw, hmw⟩ <;> simp at hmw
      | ok attachedList =>
        cases hh : env.handshakeOk with
        | false =>
          simp [initBody, hm, hc, hA, hh] at h
          rcases h with h | h
          · exact h
          · rcases hatr _ h with ⟨mw, hmw⟩ | ⟨mw, hmw⟩ <;> simp at hmw
        | true =>
          cases ft with
          | false =>
            simp [initBody, hm, hc, hA, hh] at h
            rcases h with h | h
            · exact h
            · rcases hatr _ h with ⟨mw, hmw⟩ | ⟨mw, hmw⟩ <;> simp at hmw
          | true =>
            cases hl : env.listToolsOk with
            | false =>
              simp [initBody, hm, hc, hA, hh, list_tools, hl] at h
              rcases h with h | h
              · exact h
              · rcases hatr _ h with ⟨mw, hmw⟩ | ⟨mw, hmw⟩ <;> simp at hmw
            | true =>
              simp [initBody, hm, hc, hA, hh, list_tools, hl] at h
              rcases h with h | h
              · exact h
              · rcases hatr _ h with ⟨mw, hmw⟩ | ⟨mw, hmw⟩ <;> simp at hmw
  · cases hc : env.connectOk with
    | false =>
      simp [initBody, hm, hc] at h
      exact h
    | true =>
      cases hh : env.handshakeOk with
      | false =>
        simp [initBody, hm, hc, hh] at h
        exact h
      | true =>
        cases hl : env.listToolsOk with
        | false =>
          simp [initBody, hm, hc, hh, hl] at h
          exact h
        | true =>
          simp [initBody, hm, hc, hh, hl] at h
          exact h

/-- Every transport open attempted by `init` uses the configured url, the
client's configured headers, and no timeout argument. -/
theorem init_openConn (env : Env) (st : ClientState) (ft : Bool)
    (u : String) (hs : Option Headers) (t : Option Nat)
    (h : Event.openConn u hs t ∈ (init env st ft).2.2) :
    u = build_url st.sse_url ∧ hs = some st.headers ∧ t = none := by
  rcases hB : initBody env st ft with ⟨rB, st1, tr⟩
  have htr : ∀ ev ∈ tr, ev ∈ (initBody env st ft).2.2 := by
    intro ev hev; rw [hB]; exact hev
  cases rB with
  | ok v =>
    rw [init, hB] at h
    exact initBody_openConn env st ft u hs t (htr _ h)
  | error e =>
    rw [init, hB] at h
    simp only [cleanup, List.mem_append, List.mem_cons] at h
    rcases h with h | h | h
    · exact initBody_openConn env st ft u hs t (htr _ h)
    · simp at h
    · have := cleanup_events st1 (Event.openConn u hs t) (by simpa [cleanup] using h)
      rcases this with h2 | h2 <;> simp at h2

/-- When the body of `init` succeeds, `init` returns exactly the body's
result, state and trace. -/
theorem init_eq_body_of_ok (env : Env) (st : ClientState) (ft : Bool)
    (h : (initBody env st ft).1 = Except.ok ()) :
    init env st ft = initBody env st ft := by
  rcases hB : initBody env st ft with ⟨rB, st1, tr⟩
  cases rB with
  | ok v => simp [init, hB]
  | error e => rw [hB] at h; simp at h

/-- `init` succeeds exactly when its body does. -/
theorem init_ok_iff (env : Env) (st : ClientState) (ft : Bool) :
    (init env st ft).1 = Except.ok () ↔ (initBody env st ft).1 = Except.ok () := by
  rcases hB : initBody env st ft with ⟨rB, st1, tr⟩
  cases rB <;> simp [init, hB, cleanup]

/-- The body of `init` leaves `tools` either fully replaced by the discovered
set or untouched. -/
theorem initBody_tools (env : Env) (st : ClientState) (ft : Bool) :
    (initBody env st ft).2.1.tools = env.discovered ∨
    (initBody env st ft).2.1.tools = st.tools := by
  by_cases hm : (!st.is_dynamic_headers && st.is_keep_alive) = true
  · rcases hA : attachLoop env st.middlewares with ⟨rA, atr⟩
    cases hc : env.connectOk with
    | false => right; simp [initBody, hm, hc]
    | true =>
      cases rA with
      | error e => right; simp [initBody, hm, hc, hA]
      | ok l =>
        cases hh : env.handshakeOk with
        | false => right; simp [initBody, hm, hc, hA, hh]
        | true =>
          cases ft with
          | false => right; simp [initBody, hm, hc, hA, hh]
          | true =>
            cases hl : env.listToolsOk with
            | false => right; simp [initBody, hm, hc, hA, hh, list_tools, hl]
            | true =>
              left; simp [initBody, hm, hc, hA, hh, list_tools, hl, add_tools]
  · cases hc : env.connectOk with
    | false => right; simp [initBody, hm, hc]
    | true =>
      cases hh : env.handshakeOk with
      | false => right; simp [initBody, hm, hc, hh]
      | true =>
        cases hl : env.listToolsOk with
        | false => right; simp [initBody, hm, hc, hh, hl]
        | true => left; simp [initBody, hm, hc, hh, hl, add_tools]

/-- Claim C1: after a successful `init` on a freshly constructed client, the
persistent session field is non-null exactly when `is_dynamic_headers` is
false and `is_keep_alive` is true; for every other combination of the two
flags the client holds no session when `init` returns. -/
theorem C1_mode_selection (env : Env) (st : ClientState) (ft : Bool)
    (h0 : st.session = none)
    (hok : (init env st ft).1 = Except.ok ()) :
    ((init env st ft).2.1.session ≠ none ↔
      st.is_dynamic_headers = false ∧ st.is_keep_alive = true) := by
  have hbody : (initBody env st ft).1 = Except.ok () := (init_ok_iff env st ft).mp hok
  rw [init_eq_body_of_ok env st ft hbody]
  rcases hA : attachLoop env st.middlewares with ⟨rA, atr⟩
  cases hd : st.is_dynamic_headers <;> cases hk : st.is_keep_alive <;>
    cases hc : env.connectOk <;> cases hh : env.handshakeOk <;>
    cases hl : env.listToolsOk <;> cases ft <;> cases rA <;>
    simp_all [initBody, list_tools, add_tools]

/-- Claim C2: whenever `init` fails, the caller receives exactly the opaque
initialization failure naming the server — the original error is only logged,
never part of the surfaced error — and cleanup has run: the session field is
cleared and the resource stack is empty. -/
theorem C2_opaque_error (env : Env) (st : ClientState) (ft : Bool) (e : MCPError)
    (h : (init env st ft).1 = Except.error e) :
    e = MCPError.initFailure st.name ∧
    (init env st ft).2.1.session = none ∧
    (init env st ft).2.1.exitStack = [] ∧
    ∃ cause, Event.logError st.name cause ∈ (init env st ft).2.2 := by
  rcases hB : initBody env st ft with ⟨rB, st1, tr⟩
  cases rB with
  | ok v => rw [init, hB] at h; simp at h
  | error e0 =>
    rw [init, hB] at h ⊢
    simp only [cleanup] at h
    refine ⟨by injection h with h1; exact h1.symm, by simp [cleanup],
      by simp [cleanup], e0, by simp [cleanup]⟩

/-- Claim C9: after `init` returns — successfully or with an error, in either
mode — `tools` either equals the full discovered set or is unchanged from
before the call; it is never left partially updated. -/
theorem C9_tools_atomic (env : Env) (st : ClientState) (ft : Bool) :
    (init env st ft).2.1.tools = env.discovered ∨
    (init env st ft).2.1.tools = st.tools := by
  rcases hB : initBody env st ft with ⟨rB, st1, tr⟩
  have hb := initBody_tools env st ft
  rw [hB] at hb
  cases rB with
  | ok v => rw [init, hB]; exact hb
  | error e => rw [init, hB]; simpa [cleanup] using hb

/-- Claim C3: every successful `call_tool` invocation — whatever mode `init`
selected and whether or not a persistent session exists — opens its own fresh
connection bounded by the client's `timeout`, wraps a fresh session,
handshakes, performs exactly one invocation, and releases the session and the
connection before returning the result; every connection open attempted by
`init`, in particular the persistent one, carries no timeout bound. -/
theorem C3_call_scoped (env env2 : Env) (st : ClientState) (ft : Bool)
    (n : String) (a : Args) (hs : Option Headers) (r : ToolResult)
    (hok : (call_tool env st n a hs).1 = Except.ok r) :
    (call_tool env st n a hs).2.2 =
      [Event.openConn (build_url st.sse_url) hs (some st.timeout),
       Event.wrapSession, Event.handshake, Event.callToolReq n a,
       Event.closeSession, Event.closeConn] ∧
    (∀ u hs2 t, Event.openConn u hs2 t ∈ (init env2 st ft).2.2 → t = none) := by
  constructor
  · cases hc : env.connectOk <;> cases hh : env.handshakeOk <;>
      cases hcall : env.callToolOk <;> simp_all [call_tool]
  · intro u hs2 t hmem
    exact (init_openConn env2 st ft u hs2 t hmem).2.2

/-- Claim C4: when the mode condition fails (dynamic headers, or not
keep-alive), `init` ignores its fetch-tools parameter, performs the handshake
and discovery on a call-scoped connection, stores the full discovered set in
`tools`, releases the session and the connection before returning, and retains
no long-lived state (session and resource stack unchanged). -/
theorem C4_ephemeral_init (env : Env) (st : ClientState) (ft : Bool)
    (hmode : st.is_dynamic_headers = true ∨ st.is_keep_alive = false)
    (hok : (init env st ft).1 = Except.ok ()) :
    init env st ft = init env st true ∧
    (init env st ft).2.1.tools = env.discovered ∧
    (init env st ft).2.1.session = st.session ∧
    (init env st ft).2.1.exitStack = st.exitStack ∧
    (init env st ft).2.2 =
      [Event.openConn (build_url st.sse_url) (some st.headers) none,
       Event.wrapSession, Event.handshake, Event.listToolsReq,
       Event.closeSession, Event.closeConn] := by
  have hmf : ¬(st.is_dynamic_headers = false ∧ st.is_keep_alive = true) := by
    rintro ⟨h1, h2⟩
    rcases hmode with h | h
    · rw [h1] at h; exact Bool.noConfusion h
    · rw [h2] at h; exact Bool.noConfusion h
  have hm : (!st.is_dynamic_headers && st.is_keep_alive) = false := by
    rcases hmode with h | h <;> simp [h]
  have hft : initBody env st ft = initBody env st true := by
    simp [initBody, hm]
  have hbody : (initBody env st ft).1 = Except.ok () := (init_ok_iff env st ft).mp hok
  have heq : init env st ft = initBody env st ft := init_eq_body_of_ok env st ft hbody
  have heq2 : init env st true = initBody env st true :=
    init_eq_body_of_ok env st true (by rw [← hft]; exact hbody)
  refine ⟨by rw [heq, heq2, hft], ?_, ?_, ?_, ?_⟩ <;>
    rw [heq] <;> clear heq heq2 hft hok hm hmode <;>
    cases hd : st.is_dynamic_headers <;> cases hk : st.is_keep_alive <;>
    (cases hc : env.connectOk <;> cases hh : env.handshakeOk <;>
      cases hl : env.listToolsOk <;> simp_all [initBody, add_tools])

/-- Claim C5: errors inside `call_tool` reach the caller unmodified: the
surfaced error is exactly the underlying connection, handshake or invocation
error determined by which step failed — never a wrapped initialization
failure. -/
theorem C5_call_error_unwrapped (env : Env) (st : ClientState) (n : String)
    (a : Args) (hs : Option Headers) (e : MCPError)
    (herr : (call_tool env st n a hs).1 = Except.error e) :
    e = (if env.connectOk = false then MCPError.connectionError
         else if env.handshakeOk = false then MCPError.handshakeError
         else MCPError.invocationError n) := by
  cases hc : env.connectOk <;> cases hh : env.handshakeOk <;>
    cases hcall : env.callToolOk <;> simp_all [call_tool]

/-- Claim C6: when the headers argument of `call_tool` is omitted (the source
defaults it to `None`), the connection is opened with no headers: the result
and the trace are independent of the client's configured `headers` field, and
every connection open in the trace carries no headers. -/
theorem C6_omitted_headers (env : Env) (st : ClientState) (n : String)
    (a : Args) (hs2 : Headers) :
    (call_tool env st n a none).1 =
      (call_tool env { st with headers := hs2 } n a none).1 ∧
    (call_tool env st n a none).2.2 =
      (call_tool env { st with headers := hs2 } n a none).2.2 ∧
    ∀ u hs t, Event.openConn u hs t ∈ (call_tool env st n a none).2.2 →
      hs = none := by
  refine ⟨?_, ?_, ?_⟩
  · cases hc : env.connectOk <;> cases hh : env.handshakeOk <;>
      cases hcall : env.callToolOk <;> simp [call_tool, hc, hh, hcall]
  · cases hc : env.connectOk <;> cases hh : env.handshakeOk <;>
      cases hcall : env.callToolOk <;> simp [call_tool, hc, hh, hcall]
  · intro u hs t h
    cases hc : env.connectOk <;> cases hh : env.handshakeOk <;>
      cases hcall : env.callToolOk <;> simp [call_tool, hc, hh, hcall] at h <;>
      exact h.2.1

/-- Claim C7: in persistent mode, each configured middleware in order is
attached when the session exposes the extension point and otherwise produces a
non-fatal warning; a session lacking the extension point never makes `init`
fail, and `tools` is still populated normally. -/
theorem C7_middleware_degradation (env : Env) (st : ClientState)
    (hd : st.is_dynamic_headers = false) (hk : st.is_keep_alive = true)
    (hc : env.connectOk = true) (hh : env.handshakeOk = true)
    (hl : env.listToolsOk = true) (ha : env.attachOk = true) :
    (init env st true).1 = Except.ok () ∧
    (init env st true).2.1.tools = env.discovered ∧
    (init env st true).2.1.session =
      some { attached := if env.hasAddMiddleware then st.middlewares else [] } ∧
    (init env st true).2.2 =
      (Event.openConn (build_url st.sse_url) (some st.headers) none ::
        Event.wrapSession ::
        st.middlewares.map (fun mw =>
          if env.hasAddMiddleware then Event.attachMiddleware mw
          else Event.warnMiddleware mw)) ++
        [Event.handshake, Event.listToolsReq] := by
  have hm : (!st.is_dynamic_headers && st.is_keep_alive) = true := by
    simp [hd, hk]
  cases hcap : env.hasAddMiddleware with
  | false =>
    have hA := attachLoop_no_cap env hcap st.middlewares
    have hbody : (initBody env st true).1 = Except.ok () := by
      simp [initBody, hm, hc, hA, hh, list_tools, hl]
    rw [init_eq_body_of_ok env st true hbody]
    refine ⟨hbody, ?_, ?_, ?_⟩ <;>
      simp [initBody, hm, hc, hA, hh, list_tools, hl, add_tools, hcap]
  | true =>
    have hA := attachLoop_cap_ok env hcap ha st.middlewares
    have hbody : (initBody env st true).1 = Except.ok () := by
      simp [initBody, hm, hc, hA, hh, list_tools, hl]
    rw [init_eq_body_of_ok env st true hbody]
    refine ⟨hbody, ?_, ?_, ?_⟩ <;>
      simp [initBody, hm, hc, hA, hh, list_tools, hl, add_tools, hcap]

/-- Claim C8: `call_tool` neither reads nor mutates the persistent session
field: the post state equals the pre state, and the result and trace are
unchanged when the session field is replaced by any other value. -/
theorem C8_session_frame (env : Env) (st : ClientState) (n : String)
    (a : Args) (hs : Option Headers) (s2 : Option SessionHandle) :
    (call_tool env st n a hs).2.1 = st ∧
    (call_tool env { st with session := s2 } n a hs).1 =
      (call_tool env st n a hs).1 ∧
    (call_tool env { st with session := s2 } n a hs).2.2 =
      (call_tool env st n a hs).2.2 := by
  cases hc : env.connectOk <;> cases hh : env.handshakeOk <;>
    cases hcall : env.callToolOk <;> simp [call_tool, hc, hh, hcall]

/-- Claim C10: middlewares are attached only to the persistent session: an
ephemeral-mode `init` and every `call_tool` invocation emit no middleware
attachment whatsoever, whatever the session's capabilities. -/
theorem C10_middleware_only_persistent (env env2 : Env) (st st2 : ClientState)
    (ft : Bool) (n : String) (a : Args) (hs : Option Headers) (mw : Middleware)
    (hmode : st.is_dynamic_headers = true ∨ st.is_keep_alive = false) :
    Event.attachMiddleware mw ∉ (init env st ft).2.2 ∧
    Event.attachMiddleware mw ∉ (call_tool env2 st2 n a hs).2.2 := by
  have hm : (!st.is_dynamic_headers && st.is_keep_alive) = false := by
    rcases hmode with h | h <;> simp [h]
  constructor
  · rcases hB : initBody env st ft with ⟨rB, st1, tr⟩
    have htr : Event.attachMiddleware mw ∉ tr := by
      intro hmem
      have hmem2 : Event.attachMiddleware mw ∈ (initBody env st ft).2.2 := by
        rw [hB]; exact hmem
      cases hc : env.connectOk <;> cases hh : env.handshakeOk <;>
        cases hl : env.listToolsOk <;> simp [initBody, hm, hc, hh, hl] at hmem2
    cases rB with
    | ok v => rw [init, hB]; exact htr
    | error e =>
      rw [init, hB]
      intro hmem
      simp only [cleanup, List.mem_append, List.mem_cons] at hmem
      rcases hmem with hmem | hmem | hmem
      · exact htr hmem
      · simp at hmem
      · rcases cleanup_events st1 _ (by simpa [cleanup] using hmem) with h2 | h2 <;>
          simp at h2
  · intro hmem
    cases hc : env2.connectOk <;> cases hh : env2.handshakeOk <;>
      cases hcall : env2.callToolOk <;> simp [call_tool, hc, hh, hcall] at hmem

/-- Witness for C1 at a concrete persistent-mode configuration. -/
theorem C1_mode_selection_witness :
    stPersistent.session = none ∧
    (init envOk stPersistent true).1 = Except.ok () ∧
    ((init envOk stPersistent true).2.1.session ≠ none ↔
      stPersistent.is_dynamic_headers = false ∧
        stPersistent.is_keep_alive = true) :=
  ⟨rfl, by decide, C1_mode_selection envOk stPersistent true rfl (by decide)⟩

/-- Witness for C2 at a concrete configuration whose connection open fails. -/
theorem C2_opaque_error_witness :
    (init envConnFail stPersistent true).1 =
      Except.error (MCPError.initFailure "srv") ∧
    (MCPError.initFailure "srv" = MCPError.initFailure stPersistent.name ∧
     (init envConnFail stPersistent true).2.1.session = none ∧
     (init envConnFail stPersistent true).2.1.exitStack = [] ∧
     ∃ cause, Event.logError stPersistent.name cause ∈
       (init envConnFail stPersistent true).2.2) :=
  ⟨by decide, C2_opaque_error envConnFail stPersistent true
    (MCPError.initFailure "srv") (by decide)⟩

/-- Witness for C3 at a concrete successful invocation. -/
theorem C3_call_scoped_witness :
    (call_tool envOk stPersistent "ta" [] none).1 = Except.ok "res" ∧
    ((call_tool envOk stPersistent "ta" [] none).2.2 =
      [Event.openConn (build_url stPersistent.sse_url) none
         (some stPersistent.timeout),
       Event.wrapSession, Event.handshake, Event.callToolReq "ta" [],
       Event.closeSession, Event.closeConn] ∧
     ∀ u hs2 t,
       Event.openConn u hs2 t ∈ (init envOk stPersistent true).2.2 →
         t = none) :=
  ⟨by decide,
   C3_call_scoped envOk envOk stPersistent true "ta" [] none "res" (by decide)⟩

/-- Witness for C4 at a concrete ephemeral-mode configuration, with the
fetch-tools parameter set to false. -/
theorem C4_ephemeral_init_witness :
    (stEphemeral.is_dynamic_headers = true ∨
      stEphemeral.is_keep_alive = false) ∧
    (init envOk stEphemeral false).1 = Except.ok () ∧
    (init envOk stEphemeral false = init envOk stEphemeral true ∧
     (init envOk stEphemeral false).2.1.tools = envOk.discovered ∧
     (init envOk stEphemeral false).2.1.session = stEphemeral.session ∧
     (init envOk stEphemeral false).2.1.exitStack = stEphemeral.exitStack ∧
     (init envOk stEphemeral false).2.2 =
       [Event.openConn (build_url stEphemeral.sse_url)
          (some stEphemeral.headers) none,
        Event.wrapSession, Event.handshake, Event.listToolsReq,
        Event.closeSession, Event.closeConn]) :=
  ⟨by decide, by decide,
   C4_ephemeral_init envOk stEphemeral false (by decide) (by decide)⟩

/-- Witness for C5 at a concrete invocation whose tool call fails. -/
theorem C5_call_error_unwrapped_witness :
    (call_tool envCallFail stEphemeral "nope" [] none).1 =
      Except.error (MCPError.invocationError "nope") ∧
    MCPError.invocationError "nope" =
      (if envCallFail.connectOk = false then MCPError.connectionError
       else if envCallFail.handshakeOk = false then MCPError.handshakeError
       else MCPError.invocationError "nope") :=
  ⟨by decide, C5_call_error_unwrapped envCallFail stEphemeral "nope" [] none
    (MCPError.invocationError "nope") (by decide)⟩

/-- Witness for C7 at a concrete configuration whose session lacks the
middleware extension point. -/
theorem C7_middleware_degradation_witness :
    (stPersistent.is_dynamic_headers = false ∧
     stPersistent.is_keep_alive = true ∧
     envNoCap.connectOk = true ∧ envNoCap.handshakeOk = true ∧
     envNoCap.listToolsOk = true ∧ envNoCap.attachOk = true) ∧
    ((init envNoCap stPersistent true).1 = Except.ok () ∧
     (init envNoCap stPersistent true).2.1.tools = envNoCap.discovered ∧
     (init envNoCap stPersistent true).2.1.session =
       some { attached :=
         if envNoCap.hasAddMiddleware then stPersistent.middlewares else [] } ∧
     (init envNoCap stPersistent true).2.2 =
       (Event.openConn (build_url stPersistent.sse_url)
          (some stPersistent.headers) none ::
         Event.wrapSession ::
         stPersistent.middlewares.map (fun mw =>
           if envNoCap.hasAddMiddleware then Event.attachMiddleware mw
           else Event.warnMiddleware mw)) ++
         [Event.handshake, Event.listToolsReq]) :=
  ⟨⟨rfl, rfl, rfl, rfl, rfl, rfl⟩,
   C7_middleware_degradation envNoCap stPersistent rfl rfl rfl rfl rfl rfl⟩

/-- Witness for C10 at a concrete ephemeral configuration and a concrete
invocation. -/
theorem C10_middleware_only_persistent_witness :
    (stEphemeral.is_dynamic_headers = true ∨
      stEphemeral.is_keep_alive = false) ∧
    (Event.attachMiddleware "m1" ∉ (init envOk stEphemeral true).2.2 ∧
     Event.attachMiddleware "m1" ∉
       (call_tool envOk stPersistent "ta" [] none).2.2) :=
  ⟨by decide, C10_middleware_only_persistent envOk envOk stEphemeral
    stPersistent true "ta" [] none "m1" (by decide)⟩

end SSEMCP
